import Mathlib

/-!
Shallow embedding of the `iptuapi` resilient request/response
pipeline (src/iptuapi/client.py, exceptions.py, models.py, config.py).

Modelling conventions:
- JSON values are the inductive `JValue`; a parsed Python JSON document is a
  `JValue`, and a Python dict is an association list `List (String × JValue)`.
- Python `None` is `JValue.null` where it flows into JSON-like positions, and
  `Option` where the source uses `Optional[...]` structurally.
- Floats (delays, timeout) are modelled as rationals `ℚ`: every arithmetic
  operation the source performs on them (`*`, `min`) is exact on the values
  of interest, so the rational model agrees with the float program on them.
- The HTTP transport is an oracle `outcomes : Nat → AttemptOutcome` giving,
  for each attempt index, what `self._session.request(...)` would do:
  return a response, raise `requests.exceptions.Timeout`, or raise
  `requests.exceptions.ConnectionError`.
- Exceptions are modelled by explicit result values: `_handle_error` returns
  a `HandleResult` (either a raised `IPTUAPIError` or a non-IPTUAPIError
  Python exception such as the `ValueError` from `int(...)` or the
  `AttributeError` from calling `.get` on a non-dict), and `_make_request`
  returns a `RunResult`.
-/

/-- A JSON value, as produced by `response.json()`. -/
inductive JValue where
  | null : JValue
  | bool (b : Bool) : JValue
  | num (n : Int) : JValue
  | str (s : String) : JValue
  | rat (q : ℚ) : JValue
  | arr (elems : List JValue) : JValue
  | obj (fields : List (String × JValue)) : JValue
deriving Repr

/-- Headers of an HTTP response, as the plain `dict` built by
`dict(response.headers)` in the source: an association list with exact-match
key lookup (keys are unique in a dict, so first match is the match). -/
def Headers : Type := List (String × String)

/-- Python `headers.get(k)`: the value at key `k`, or `None`. -/
def Headers.get? (h : Headers) (k : String) : Option String :=
  List.lookup k h

/-- Python `d.get(k)` on a parsed JSON dict. -/
def dictGet? (d : List (String × JValue)) (k : String) : Option JValue :=
  List.lookup k d

/-- Python `d.get(k, default)` on a parsed JSON dict. -/
def dictGetD (d : List (String × JValue)) (k : String) (default : JValue) : JValue :=
  (dictGet? d k).getD default

/-- ASCII whitespace as stripped by Python `int(...)`:
space, tab, newline, vertical tab, form feed, carriage return. -/
def pyWhitespace (c : Char) : Bool :=
  c = ' ' || c.toNat = 9 || c.toNat = 10 || c.toNat = 11 || c.toNat = 12 || c.toNat = 13

/-- Strip leading and trailing whitespace from a character list. -/
def pyStrip (l : List Char) : List Char :=
  ((l.dropWhile pyWhitespace).reverse.dropWhile pyWhitespace).reverse

/-- Python `int(s)` on a string: strip surrounding whitespace, optional sign,
then decimal digits; returns `none` where Python raises `ValueError`.
(Digit-grouping underscores and non-ASCII digits and whitespace, which
CPython also accepts, are not modelled; no claim depends on them.) -/
def pyInt? (s : String) : Option Int :=
  let t := pyStrip s.data
  let signDigits : Int × List Char :=
    match t with
    | '-' :: rest => (-1, rest)
    | '+' :: rest => (1, rest)
    | _ => (1, t)
  if signDigits.2.length > 0 && signDigits.2.all Char.isDigit then
    some (signDigits.1 *
      (signDigits.2.foldl (fun acc c => acc * 10 + ((c.toNat - 48 : Nat) : Int)) 0))
  else
    none

/-- The builtin Python `min` on two numbers: the first argument when it is
less than or equal to the second, else the second. (the Mathlib `min` on ℚ
agrees with this but does not reduce by evaluation.) -/
def ratMin (a b : ℚ) : ℚ := if a ≤ b then a else b

/-! ## Exception taxonomy (src/iptuapi/exceptions.py) -/

/-- The closed set of error values raised by the client, one constructor per
exception class in `exceptions.py`. Each constructor stores the attributes
set by the `__init__` of that class beyond its fixed status code:
`base` stores `message`, `status_code`, `request_id` (the unused
`response_data` parameter is never passed by the client and is omitted);
`rateLimit` stores the final value of `self.retry_after` (after the
`retry_after or 60` coercion, applied by the smart constructor below);
`timeout` stores `timeout_seconds` (a float, modelled as `ℚ`);
`network` stores `original_error` as the text of the wrapped exception. -/
inductive IPTUAPIError where
  | base (message : JValue) (status_code : Option Nat) (request_id : Option String)
  | authentication (message : JValue) (request_id : Option String)
  | forbidden (message : JValue) (required_plan : JValue) (request_id : Option String)
  | notFound (message : JValue) (resource : JValue) (request_id : Option String)
  | rateLimit (message : JValue) (retry_after : Int) (request_id : Option String)
  | validation (message : JValue) (errors : JValue) (status_code : Nat) (request_id : Option String)
  | server (message : JValue) (status_code : Nat) (request_id : Option String)
  | timeout (message : JValue) (timeout_seconds : Option ℚ) (request_id : Option String)
  | network (message : JValue) (original_error : Option String)
deriving Repr

/-- Constructor for `RateLimitError`: `__init__` stores
`self.retry_after = retry_after or 60`, so `None` and `0` both become `60`
(any other integer, negative included, is kept as-is). -/
def RateLimitError.make (message : JValue) (retry_after : Option Int)
    (request_id : Option String) : IPTUAPIError :=
  IPTUAPIError.rateLimit message
    (match retry_after with
     | none => 60
     | some v => if v = 0 then 60 else v)
    request_id

/-- Python `self.__class__.__name__`. -/
def IPTUAPIError.className : IPTUAPIError → String
  | .base .. => "IPTUAPIError"
  | .authentication .. => "AuthenticationError"
  | .forbidden .. => "ForbiddenError"
  | .notFound .. => "NotFoundError"
  | .rateLimit .. => "RateLimitError"
  | .validation .. => "ValidationError"
  | .server .. => "ServerError"
  | .timeout .. => "TimeoutError"
  | .network .. => "NetworkError"

/-- The `self.status_code` attribute: fixed by the subclass `__init__` for
`authentication` (401), `forbidden` (403), `notFound` (404), `rateLimit`
(429), `timeout` (408); `None` for `network`; as stored otherwise. -/
def IPTUAPIError.status_code : IPTUAPIError → Option Nat
  | .base _ sc _ => sc
  | .authentication .. => some 401
  | .forbidden .. => some 403
  | .notFound .. => some 404
  | .rateLimit .. => some 429
  | .validation _ _ sc _ => some sc
  | .server _ sc _ => some sc
  | .timeout .. => some 408
  | .network .. => none

/-- The `self.message` attribute. -/
def IPTUAPIError.messageVal : IPTUAPIError → JValue
  | .base m _ _ => m
  | .authentication m _ => m
  | .forbidden m _ _ => m
  | .notFound m _ _ => m
  | .rateLimit m _ _ => m
  | .validation m _ _ _ => m
  | .server m _ _ => m
  | .timeout m _ _ => m
  | .network m _ => m

/-- The `self.request_id` attribute (`NetworkError.__init__` passes `None`). -/
def IPTUAPIError.requestId : IPTUAPIError → Option String
  | .base _ _ r => r
  | .authentication _ r => r
  | .forbidden _ _ r => r
  | .notFound _ _ r => r
  | .rateLimit _ _ r => r
  | .validation _ _ _ r => r
  | .server _ _ r => r
  | .timeout _ _ r => r
  | .network _ _ => none

/-- The `is_retryable` method: `False` on the base class, overridden to
`True` in exactly `RateLimitError`, `ServerError`, `TimeoutError`,
`NetworkError`. -/
def IPTUAPIError.is_retryable : IPTUAPIError → Bool
  | .rateLimit .. => true
  | .server .. => true
  | .timeout .. => true
  | .network .. => true
  | _ => false

/-- Python `None`-or-string as a dict value. -/
def jOfOptStr : Option String → JValue
  | none => JValue.null
  | some s => JValue.str s

/-- Python `None`-or-int as a dict value. -/
def jOfOptNat : Option Nat → JValue
  | none => JValue.null
  | some n => JValue.num n

/-- Python `None`-or-float as a dict value. -/
def jOfOptRat : Option ℚ → JValue
  | none => JValue.null
  | some q => JValue.rat q

/-- The `to_dict` method: the base class emits the five common entries in
insertion order; each overriding subclass calls `super().to_dict()` and then
adds its kind-specific key, which lands at the end of the dict. -/
def IPTUAPIError.to_dict (e : IPTUAPIError) : List (String × JValue) :=
  let baseDict : List (String × JValue) :=
    [("error", JValue.str e.className),
     ("message", e.messageVal),
     ("status_code", jOfOptNat e.status_code),
     ("request_id", jOfOptStr e.requestId),
     ("retryable", JValue.bool e.is_retryable)]
  match e with
  | .forbidden _ plan _ => baseDict ++ [("required_plan", plan)]
  | .notFound _ res _ => baseDict ++ [("resource", res)]
  | .rateLimit _ ra _ => baseDict ++ [("retry_after", JValue.num ra)]
  | .validation _ errs _ _ => baseDict ++ [("validation_errors", errs)]
  | .timeout _ ts _ => baseDict ++ [("timeout_seconds", jOfOptRat ts)]
  | _ => baseDict

/-! ## HTTP responses and the error classifier (IPTUClient._handle_error) -/

/-- Outcome of `response.json()`: `ok` with the parsed document, or `fail`
when the body is not valid JSON and the call raises `ValueError`
(`fail` carries `str(e)` of the raised exception). -/
inductive JsonParse where
  | ok (v : JValue) : JsonParse
  | fail (err : String) : JsonParse
deriving Repr

/-- An HTTP response as seen by the client: status code, header dict, raw
body text (`response.text`), and the result of `response.json()` on it. -/
structure Response where
  status_code : Nat
  headers : Headers
  text : String
  json : JsonParse

/-- Result of running `_handle_error` on a response: `raised e` when it
raises the `IPTUAPIError` `e`; `pyError msg` when a non-`IPTUAPIError`
Python exception escapes it instead (the `ValueError` from
`int(headers.get("Retry-After", 60))` on an unparseable header, or the
`AttributeError` from `data.get(...)` when the parsed JSON body is not a
dict). `msg` models `str(e)` of that exception. -/
inductive HandleResult where
  | raised (e : IPTUAPIError) : HandleResult
  | pyError (msg : String) : HandleResult
deriving Repr

/-- The status-dispatch tail of `_handle_error`, after `data` and `message`
have been computed: the if/elif chain over `response.status_code`. -/
def classifyStatus (r : Response) (data : List (String × JValue))
    (message : JValue) (request_id : Option String) : HandleResult :=
  if r.status_code = 401 then
    .raised (.authentication message request_id)
  else if r.status_code = 403 then
    .raised (.forbidden message
      ((dictGet? data "required_plan").getD JValue.null) request_id)
  else if r.status_code = 404 then
    .raised (.notFound message
      ((dictGet? data "resource").getD JValue.null) request_id)
  else if r.status_code = 429 then
    match r.headers.get? "Retry-After" with
    | none => .raised (RateLimitError.make message (some 60) request_id)
    | some s =>
      match pyInt? s with
      | some v => .raised (RateLimitError.make message (some v) request_id)
      | none => .pyError ("invalid literal for int with base 10: " ++ s)
  else if r.status_code = 400 ∨ r.status_code = 422 then
    .raised (.validation message
      (dictGetD data "errors" (JValue.obj [])) r.status_code request_id)
  else if r.status_code ≥ 500 then
    .raised (.server message r.status_code request_id)
  else
    .raised (.base message (some r.status_code) request_id)

/-- Model of `IPTUClient._handle_error`: read the request id header, try to parse the
body (`data = response.json(); message = data.get("detail",
data.get("message", "Erro desconhecido"))`, where a `ValueError` from
`.json()` is caught and falls back to `data = {}` and
`message = response.text or "Erro desconhecido"`, while the
`AttributeError` from `.get` on a non-dict document is NOT caught), then
dispatch on the status code. -/
def handle_error (r : Response) : HandleResult :=
  let request_id := r.headers.get? "X-Request-ID"
  match r.json with
  | .ok (JValue.obj d) =>
      let message := (dictGet? d "detail").getD
        ((dictGet? d "message").getD (JValue.str "Erro desconhecido"))
      classifyStatus r d message request_id
  | .ok other =>
      .pyError ("AttributeError: " ++ (reprStr other) ++ " object has no attribute get")
  | .fail _ =>
      let message := if r.text = "" then JValue.str "Erro desconhecido" else JValue.str r.text
      classifyStatus r [] message request_id

/-! ## Rate-limit bookkeeping (src/iptuapi/models.py, RateLimitInfo) -/

/-- The `RateLimitInfo` dataclass; `reset_at` is the `datetime` built from
the unix timestamp, modelled by the timestamp integer itself
(`datetime.fromtimestamp` is injective on the values of interest and its
platform-dependent range errors are not modelled). -/
structure RateLimitInfo where
  limit : Int
  remaining : Int
  reset_at : Int
deriving Repr

/-- Model of `RateLimitInfo.from_headers`: parse the three `X-RateLimit-*` headers
with `int(...)` (absent headers default to the integer `0`); any
`ValueError` makes the whole constructor return `None`. -/
def RateLimitInfo.from_headers (h : Headers) : Option RateLimitInfo := do
  let limit ← match h.get? "X-RateLimit-Limit" with
    | none => some (0 : Int)
    | some s => pyInt? s
  let remaining ← match h.get? "X-RateLimit-Remaining" with
    | none => some (0 : Int)
    | some s => pyInt? s
  let reset ← match h.get? "X-RateLimit-Reset" with
    | none => some (0 : Int)
    | some s => pyInt? s
  pure { limit := limit, remaining := remaining, reset_at := reset }

/-! ## Configuration (src/iptuapi/config.py) -/

/-- The `RetryConfig` dataclass (the `retryable_status_codes` field exists
in the source but is read by no code path, so it is omitted here). -/
structure RetryConfig where
  max_retries : Nat := 3
  initial_delay : ℚ := 1
  max_delay : ℚ := 30
  backoff_factor : ℚ := 2

/-! ## The request executor (IPTUClient._make_request) -/

/-- What one call to `self._session.request(...)` does, as dictated by the
environment: deliver a response, raise `requests.exceptions.Timeout`, or
raise `requests.exceptions.ConnectionError` (with `str(e)` text). Any
other exception the requests library could raise is not modelled. -/
inductive AttemptOutcome where
  | response (r : Response) : AttemptOutcome
  | timeoutRaised : AttemptOutcome
  | connectionFailed (err : String) : AttemptOutcome

/-- The two client fields mutated by the executor:
`self._rate_limit_info` and `self._last_request_id`. -/
structure ClientState where
  rate_limit_info : Option RateLimitInfo
  last_request_id : Option String
deriving Repr

/-- How one logical `_make_request` call ends: `payload v` when it returns
`response.json()`, or `error e` when it raises the `IPTUAPIError` `e`. -/
inductive RequestResult where
  | payload (v : JValue) : RequestResult
  | error (e : IPTUAPIError) : RequestResult
deriving Repr

/-- Observable trace of one `_make_request` call: its final result, the
client state on exit, the `time.sleep` durations in order, the number of
`self._session.request` calls made, and whether the defensive post-loop
`raise NetworkError("Maximo de tentativas excedido")` line was reached. -/
structure RunResult where
  result : RequestResult
  state : ClientState
  sleeps : List ℚ
  attemptsMade : Nat
  fellThrough : Bool
deriving Repr

/-- Client state written after a completed HTTP exchange with response `r`:
`self._rate_limit_info = RateLimitInfo.from_headers(dict(response.headers))`
and `self._last_request_id = response.headers.get("X-Request-ID")`. -/
def stateFromResponse (r : Response) : ClientState :=
  { rate_limit_info := RateLimitInfo.from_headers r.headers,
    last_request_id := r.headers.get? "X-Request-ID" }

/-- Result of the body of one loop iteration of `_make_request` once a
response arrived: update the two client fields, then either hand the
response to `_handle_error` (status ≥ 400) — re-raising an `IPTUAPIError`
as-is and wrapping any other exception as
`NetworkError("Erro inesperado: " + str(e))` — or return `response.json()`,
whose own `ValueError` is wrapped the same way. -/
def iterationOnResponse (r : Response) : RequestResult :=
  if r.status_code ≥ 400 then
    match handle_error r with
    | .raised e => .error e
    | .pyError m => .error (.network (JValue.str ("Erro inesperado: " ++ m)) (some m))
  else
    match r.json with
    | .ok v => .payload v
    | .fail m => .error (.network (JValue.str ("Erro inesperado: " ++ m)) (some m))

/-- The retry loop of `_make_request`, from iteration `attempt` on, with
`remaining` iterations left in `range(max_retries + 1)`, current backoff
`delay`, client state `st` and the sleeps so far. `remaining = 0` is the
loop exhausting normally, which runs the defensive post-loop raise. -/
def loopFrom (cfg : RetryConfig) (timeoutSecs : ℚ) (outcomes : Nat → AttemptOutcome) :
    Nat → Nat → ℚ → ClientState → List ℚ → RunResult
  | 0, attempt, _, st, sleeps =>
      { result := .error (.network (JValue.str "Maximo de tentativas excedido") none),
        state := st, sleeps := sleeps, attemptsMade := attempt, fellThrough := true }
  | remaining + 1, attempt, delay, st, sleeps =>
      match outcomes attempt with
      | .response r =>
          { result := iterationOnResponse r, state := stateFromResponse r,
            sleeps := sleeps, attemptsMade := attempt + 1, fellThrough := false }
      | .timeoutRaised =>
          if attempt < cfg.max_retries then
            loopFrom cfg timeoutSecs outcomes remaining (attempt + 1)
              (ratMin (delay * cfg.backoff_factor) cfg.max_delay) st (sleeps ++ [delay])
          else
            { result := .error (.timeout
                (JValue.str ("Timeout apos " ++ toString timeoutSecs ++ "s"))
                (some timeoutSecs) none),
              state := st, sleeps := sleeps, attemptsMade := attempt + 1,
              fellThrough := false }
      | .connectionFailed m =>
          if attempt < cfg.max_retries then
            loopFrom cfg timeoutSecs outcomes remaining (attempt + 1)
              (ratMin (delay * cfg.backoff_factor) cfg.max_delay) st (sleeps ++ [delay])
          else
            { result := .error (.network (JValue.str ("Erro de conexao: " ++ m)) (some m)),
              state := st, sleeps := sleeps, attemptsMade := attempt + 1,
              fellThrough := false }

/-- Model of `IPTUClient._make_request`: run the loop
`for attempt in range(retry_config.max_retries + 1)` starting from
`delay = retry_config.initial_delay` and the current client state. -/
def make_request (cfg : RetryConfig) (timeoutSecs : ℚ)
    (outcomes : Nat → AttemptOutcome) (st : ClientState) : RunResult :=
  loopFrom cfg timeoutSecs outcomes (cfg.max_retries + 1) 0 cfg.initial_delay st []

/-! ## Observation helpers and spec-side definitions -/

/-- Class name of the error an `_handle_error` run raised, if it raised an
`IPTUAPIError` at all (rather than letting a Python error escape). -/
def HandleResult.raisedClass : HandleResult → Option String
  | .raised e => some e.className
  | .pyError _ => none

/-- Message of the raised `IPTUAPIError`, when one was raised. -/
def HandleResult.raisedMessage : HandleResult → Option JValue
  | .raised e => some e.messageVal
  | .pyError _ => none

/-- The stored `retry_after` when a `RateLimitError` was raised. -/
def HandleResult.retryAfterStored : HandleResult → Option Int
  | .raised (.rateLimit _ ra _) => some ra
  | _ => none

/-- Whether a non-`IPTUAPIError` Python exception escaped the classifier. -/
def HandleResult.isPyError : HandleResult → Bool
  | .pyError _ => true
  | .raised _ => false

/-- A response body shape the body handling of the classifier was written
for: either
unparseable JSON (the caught `ValueError` path) or a JSON object (a dict).
A parseable non-object body makes `data.get` raise `AttributeError`. -/
def Response.bodyDictOrUnparsed (r : Response) : Bool :=
  match r.json with
  | .ok (JValue.obj _) => true
  | .ok _ => false
  | .fail _ => true

/-- Whether the `Retry-After` header, if present, parses with `int(...)`. -/
def Response.retryAfterHeaderOk (r : Response) : Bool :=
  match r.headers.get? "Retry-After" with
  | none => true
  | some s => (pyInt? s).isSome

/-- Modelled from the spec, §4.2 table: the error-class name the table
assigns to each status ≥ 400 (first match wins). Used only to compare the
classifier of the code against the mapping of the spec. -/
def specVariantOfStatus (status : Nat) : String :=
  if status = 401 then "AuthenticationError"
  else if status = 403 then "ForbiddenError"
  else if status = 404 then "NotFoundError"
  else if status = 429 then "RateLimitError"
  else if status = 400 ∨ status = 422 then "ValidationError"
  else if status ≥ 500 then "ServerError"
  else "IPTUAPIError"

/-- Modelled from the spec, §4.1(d)/§8: the inter-attempt delay sequence
`initial_delay, initial_delay*backoff_factor, ..., capped at max_delay`,
i.e. the value of `delay` before the `n`-th sleep. -/
def delaySeq (cfg : RetryConfig) : Nat → ℚ
  | 0 => cfg.initial_delay
  | n + 1 => ratMin (delaySeq cfg n * cfg.backoff_factor) cfg.max_delay

/-- Whether an attempt outcome is a transport-layer failure (timeout or
connection error), the only outcomes the executor retries on. -/
def AttemptOutcome.isTransportFailure : AttemptOutcome → Bool
  | .timeoutRaised => true
  | .connectionFailed _ => true
  | .response _ => false

/-! ## Helper lemmas -/

/-- As long as at least one loop iteration is left, the loop either
terminates inside an iteration or continues into another iteration that
exists, so the post-loop fallback line is never reached. -/
theorem loopFrom_not_fellThrough (cfg : RetryConfig) (timeoutSecs : ℚ)
    (outcomes : Nat → AttemptOutcome) :
    ∀ remaining attempt delay st sleeps, 1 ≤ remaining →
      attempt + remaining = cfg.max_retries + 1 →
      (loopFrom cfg timeoutSecs outcomes remaining attempt delay st sleeps).fellThrough
        = false := by
  intro remaining
  induction remaining with
  | zero => intro attempt delay st sleeps h1 _; omega
  | succ n ih =>
    intro attempt delay st sleeps _ hsum
    cases houtcome : outcomes attempt with
    | response r => simp only [loopFrom, houtcome]
    | timeoutRaised =>
      simp only [loopFrom, houtcome]
      by_cases hlt : attempt < cfg.max_retries
      · rw [if_pos hlt]
        exact ih (attempt + 1) _ st (sleeps ++ [delay]) (by omega) (by omega)
      · rw [if_neg hlt]
    | connectionFailed m =>
      simp only [loopFrom, houtcome]
      by_cases hlt : attempt < cfg.max_retries
      · rw [if_pos hlt]
        exact ih (attempt + 1) _ st (sleeps ++ [delay]) (by omega) (by omega)
      · rw [if_neg hlt]

/-! ## Claims -/

/-- C7: `is_retryable()` returns true for an error if and only if it is a
RateLimitError, ServerError, TimeoutError, or NetworkError; for
AuthenticationError, ForbiddenError, NotFoundError, ValidationError, and
the base error it returns false. -/
theorem C7_is_retryable_exactly_four (e : IPTUAPIError) :
    e.is_retryable = true ↔
      (e.className = "RateLimitError" ∨ e.className = "ServerError" ∨
       e.className = "TimeoutError" ∨ e.className = "NetworkError") := by
  cases e <;>
    simp [IPTUAPIError.is_retryable, IPTUAPIError.className]

/-- Concrete 404 response with JSON body carrying only a `detail` field. -/
def respNotFoundDetail : Response :=
  { status_code := 404, headers := [], text := "\x7b\"detail\": \"X\"\x7d",
    json := .ok (.obj [("detail", .str "X")]) }

/-- C8: classifying a 404 response with JSON body carrying `detail = "X"`
yields a NotFoundError whose message is exactly `"X"`, and its `to_dict`
serialization carries `error = "NotFoundError"`, `message = "X"`,
`status_code = 404`, `retryable = false`, `resource = null`. -/
theorem C8_notFound_roundtrip :
    handle_error respNotFoundDetail =
      .raised (.notFound (.str "X") .null none) ∧
    (IPTUAPIError.notFound (.str "X") .null none).to_dict =
      [("error", .str "NotFoundError"), ("message", .str "X"),
       ("status_code", .num 404), ("request_id", .null),
       ("retryable", .bool false), ("resource", .null)] :=
  ⟨rfl, rfl⟩

/-- C9: for every run of the request loop, the defensive post-loop raise
(`NetworkError("Maximo de tentativas excedido")`) is unreachable: every
iteration returns, raises, or continues into an iteration that exists, so
the loop never exits normally. -/
theorem C9_fallback_unreachable (cfg : RetryConfig) (timeoutSecs : ℚ)
    (outcomes : Nat → AttemptOutcome) (st : ClientState) :
    (make_request cfg timeoutSecs outcomes st).fellThrough = false :=
  loopFrom_not_fellThrough cfg timeoutSecs outcomes (cfg.max_retries + 1) 0
    cfg.initial_delay st [] (by omega) (by omega)

/-- When every attempt fails at the transport layer, the loop never writes
the two bookkeeping fields of the client: the state it finishes with is the
state it started from. -/
theorem loopFrom_state_const (cfg : RetryConfig) (timeoutSecs : ℚ)
    (outcomes : Nat → AttemptOutcome)
    (h : ∀ i, (outcomes i).isTransportFailure = true) :
    ∀ remaining attempt delay st sleeps,
      (loopFrom cfg timeoutSecs outcomes remaining attempt delay st sleeps).state = st := by
  intro remaining
  induction remaining with
  | zero => intro attempt delay st sleeps; rfl
  | succ n ih =>
    intro attempt delay st sleeps
    cases houtcome : outcomes attempt with
    | response r =>
      have := h attempt
      rw [houtcome] at this
      simp [AttemptOutcome.isTransportFailure] at this
    | timeoutRaised =>
      simp only [loopFrom, houtcome]
      by_cases hlt : attempt < cfg.max_retries
      · rw [if_pos hlt]; exact ih _ _ _ _
      · rw [if_neg hlt]
    | connectionFailed m =>
      simp only [loopFrom, houtcome]
      by_cases hlt : attempt < cfg.max_retries
      · rw [if_pos hlt]; exact ih _ _ _ _
      · rw [if_neg hlt]

/-- A run that returns a payload got it from a delivered response with a
success status whose body parsed as JSON. -/
theorem loopFrom_payload_parsed (cfg : RetryConfig) (timeoutSecs : ℚ)
    (outcomes : Nat → AttemptOutcome) :
    ∀ remaining attempt delay st sleeps v,
      (loopFrom cfg timeoutSecs outcomes remaining attempt delay st sleeps).result
        = .payload v →
      ∃ k r, outcomes k = .response r ∧ r.status_code < 400 ∧ r.json = .ok v := by
  intro remaining
  induction remaining with
  | zero =>
    intro attempt delay st sleeps v h
    simp [loopFrom] at h
  | succ n ih =>
    intro attempt delay st sleeps v h
    cases houtcome : outcomes attempt with
    | response r =>
      simp only [loopFrom, houtcome] at h
      unfold iterationOnResponse at h
      by_cases hstatus : r.status_code ≥ 400
      · rw [if_pos hstatus] at h
        cases hh : handle_error r <;> rw [hh] at h <;> exact absurd h (by simp)
      · rw [if_neg hstatus] at h
        cases hj : r.json with
        | ok w =>
          rw [hj] at h
          cases h
          exact ⟨attempt, r, houtcome, by omega, hj⟩
        | fail m => rw [hj] at h; exact absurd h (by simp)
    | timeoutRaised =>
      simp only [loopFrom, houtcome] at h
      by_cases hlt : attempt < cfg.max_retries
      · rw [if_pos hlt] at h; exact ih _ _ _ _ _ h
      · rw [if_neg hlt] at h; exact absurd h (by simp)
    | connectionFailed m =>
      simp only [loopFrom, houtcome] at h
      by_cases hlt : attempt < cfg.max_retries
      · rw [if_pos hlt] at h; exact ih _ _ _ _ _ h
      · rw [if_neg hlt] at h; exact absurd h (by simp)

/-- C4: an iteration that receives a response with status ≥ 400 classifies
it once and raises the resulting error to the caller immediately: the run
ends with exactly that attempt (no further send, no further sleep), and
its result is the error of the classifier — an escaped Python exception being
wrapped as `NetworkError("Erro inesperado: ...")`. Classified HTTP errors,
429 and 5xx included, are never retried; only transport failures are. -/
theorem C4_http_error_no_retry (cfg : RetryConfig) (timeoutSecs : ℚ)
    (outcomes : Nat → AttemptOutcome) (remaining attempt : Nat) (delay : ℚ)
    (st : ClientState) (sleeps : List ℚ) (r : Response)
    (hout : outcomes attempt = .response r) (hstatus : 400 ≤ r.status_code) :
    (loopFrom cfg timeoutSecs outcomes (remaining + 1) attempt delay st sleeps).attemptsMade
      = attempt + 1 ∧
    (loopFrom cfg timeoutSecs outcomes (remaining + 1) attempt delay st sleeps).sleeps
      = sleeps ∧
    (loopFrom cfg timeoutSecs outcomes (remaining + 1) attempt delay st sleeps).result
      = .error (match handle_error r with
          | .raised e => e
          | .pyError m => .network (JValue.str ("Erro inesperado: " ++ m)) (some m)) := by
  refine ⟨?_, ?_, ?_⟩ <;> simp only [loopFrom, hout]
  unfold iterationOnResponse
  rw [if_pos hstatus]
  cases handle_error r <;> rfl

/-- Response used to exercise the no-retry-on-HTTP-error path. -/
def respServerBoom : Response :=
  { status_code := 500, headers := [("X-Request-ID", "rid")], text := "boom",
    json := .fail "Expecting value" }

/-- Witness for C4: a 500 response on the first attempt ends the call at
one attempt, with no sleeps, raising the classified ServerError. -/
theorem C4_http_error_no_retry_witness :
    (loopFrom {} 30 (fun _ => .response respServerBoom) 3 0 1 ⟨none, none⟩ []).attemptsMade
      = 1 ∧
    (loopFrom {} 30 (fun _ => .response respServerBoom) 3 0 1 ⟨none, none⟩ []).sleeps
      = [] ∧
    (loopFrom {} 30 (fun _ => .response respServerBoom) 3 0 1 ⟨none, none⟩ []).result
      = .error (.server (.str "boom") 500 (some "rid")) :=
  C4_http_error_no_retry {} 30 (fun _ => .response respServerBoom) 2 0 1
    ⟨none, none⟩ [] respServerBoom rfl (by decide)

/-- C5: every completed HTTP exchange — any delivered response, whether the
call then returns a payload or raises — overwrites the rate-limit
snapshot and last-request-id fields of the client from the headers of that
response, while a
run whose every attempt fails at the transport layer leaves both fields
exactly as they were. -/
theorem C5_bookkeeping_fields :
    (∀ (cfg : RetryConfig) (timeoutSecs : ℚ) (outcomes : Nat → AttemptOutcome)
        (remaining attempt : Nat) (delay : ℚ) (st : ClientState) (sleeps : List ℚ)
        (r : Response), outcomes attempt = .response r →
        (loopFrom cfg timeoutSecs outcomes (remaining + 1) attempt delay st sleeps).state
          = stateFromResponse r) ∧
    (∀ (cfg : RetryConfig) (timeoutSecs : ℚ) (outcomes : Nat → AttemptOutcome)
        (st : ClientState), (∀ i, (outcomes i).isTransportFailure = true) →
        (make_request cfg timeoutSecs outcomes st).state = st) := by
  constructor
  · intro cfg timeoutSecs outcomes remaining attempt delay st sleeps r hout
    simp only [loopFrom, hout]
  · intro cfg timeoutSecs outcomes st h
    exact loopFrom_state_const cfg timeoutSecs outcomes h _ _ _ _ _

/-- Witness for C5: a delivered 500 response overwrites both fields from
its headers, and an all-timeouts run leaves the initial state intact. -/
theorem C5_bookkeeping_fields_witness :
    (loopFrom {} 30 (fun _ => .response respServerBoom) 3 0 1
        ⟨some ⟨9, 9, 9⟩, some "old"⟩ []).state
      = { rate_limit_info := some ⟨0, 0, 0⟩, last_request_id := some "rid" } ∧
    (make_request {} 30 (fun _ => .timeoutRaised)
        ⟨some ⟨9, 9, 9⟩, some "old"⟩).state
      = ⟨some ⟨9, 9, 9⟩, some "old"⟩ :=
  ⟨C5_bookkeeping_fields.1 {} 30 (fun _ => .response respServerBoom) 2 0 1
      ⟨some ⟨9, 9, 9⟩, some "old"⟩ [] respServerBoom rfl,
   C5_bookkeeping_fields.2 {} 30 (fun _ => .timeoutRaised)
      ⟨some ⟨9, 9, 9⟩, some "old"⟩ (fun _ => rfl)⟩

/-- C10: a response with a success status (< 400) whose body is not JSON
does not produce a payload: that very iteration raises
`NetworkError("Erro inesperado: ...")` wrapping the parse failure, with no
further attempt and no sleep; and conversely, any returned payload comes
from a delivered success response whose body parsed as JSON. -/
theorem C10_success_body_must_parse :
    (∀ (cfg : RetryConfig) (timeoutSecs : ℚ) (outcomes : Nat → AttemptOutcome)
        (remaining attempt : Nat) (delay : ℚ) (st : ClientState) (sleeps : List ℚ)
        (r : Response) (m : String),
        outcomes attempt = .response r → r.status_code < 400 → r.json = .fail m →
        (loopFrom cfg timeoutSecs outcomes (remaining + 1) attempt delay st sleeps).attemptsMade
          = attempt + 1 ∧
        (loopFrom cfg timeoutSecs outcomes (remaining + 1) attempt delay st sleeps).sleeps
          = sleeps ∧
        (loopFrom cfg timeoutSecs outcomes (remaining + 1) attempt delay st sleeps).result
          = .error (.network (JValue.str ("Erro inesperado: " ++ m)) (some m))) ∧
    (∀ (cfg : RetryConfig) (timeoutSecs : ℚ) (outcomes : Nat → AttemptOutcome)
        (st : ClientState) (v : JValue),
        (make_request cfg timeoutSecs outcomes st).result = .payload v →
        ∃ k r, outcomes k = .response r ∧ r.status_code < 400 ∧ r.json = .ok v) := by
  constructor
  · intro cfg timeoutSecs outcomes remaining attempt delay st sleeps r m hout hstatus hjson
    refine ⟨?_, ?_, ?_⟩ <;> simp only [loopFrom, hout]
    unfold iterationOnResponse
    rw [if_neg (by omega), hjson]
  · intro cfg timeoutSecs outcomes st v h
    exact loopFrom_payload_parsed cfg timeoutSecs outcomes _ _ _ _ _ _ h

/-- Success-status response with a non-JSON body. -/
def respOkBadBody : Response :=
  { status_code := 200, headers := [], text := "internal text",
    json := .fail "Expecting value" }

/-- Success-status response with a JSON body. -/
def respOkGoodBody : Response :=
  { status_code := 200, headers := [], text := "\x7b\"data\": []\x7d",
    json := .ok (.obj [("data", .arr [])]) }

/-- Witness for C10: a 200 response with an unparseable body raises the
wrapping NetworkError on the spot, and a run returning a payload indeed
saw a parsed success response. -/
theorem C10_success_body_must_parse_witness :
    ((loopFrom {} 30 (fun _ => .response respOkBadBody) 3 0 1 ⟨none, none⟩ []).attemptsMade
        = 1 ∧
      (loopFrom {} 30 (fun _ => .response respOkBadBody) 3 0 1 ⟨none, none⟩ []).sleeps
        = [] ∧
      (loopFrom {} 30 (fun _ => .response respOkBadBody) 3 0 1 ⟨none, none⟩ []).result
        = .error (.network (JValue.str "Erro inesperado: Expecting value")
            (some "Expecting value"))) ∧
    (∃ (k : Nat) (r : Response),
      (fun (_ : Nat) => AttemptOutcome.response respOkGoodBody) k = .response r ∧
      r.status_code < 400 ∧ r.json = .ok (.obj [("data", .arr [])])) :=
  ⟨C10_success_body_must_parse.1 {} 30 (fun _ => .response respOkBadBody) 2 0 1
      ⟨none, none⟩ [] respOkBadBody "Expecting value" rfl (by decide) rfl,
   C10_success_body_must_parse.2 {} 30 (fun _ => .response respOkGoodBody)
      ⟨none, none⟩ (.obj [("data", .arr [])]) rfl⟩

/-- The backoff sequence as it continues from a current `delay` value:
element `n` is the delay slept before attempt `n + 1` from here on. -/
def delaySeqFrom (cfg : RetryConfig) (d : ℚ) : Nat → ℚ
  | 0 => d
  | n + 1 => ratMin (delaySeqFrom cfg d n * cfg.backoff_factor) cfg.max_delay

/-- Stepping the start of the backoff sequence once shifts it by one. -/
theorem delaySeqFrom_succ_shift (cfg : RetryConfig) (d : ℚ) :
    ∀ n, delaySeqFrom cfg d (n + 1)
      = delaySeqFrom cfg (ratMin (d * cfg.backoff_factor) cfg.max_delay) n := by
  intro n
  induction n with
  | zero => rfl
  | succ k ih =>
    calc delaySeqFrom cfg d (k + 2)
        = ratMin (delaySeqFrom cfg d (k + 1) * cfg.backoff_factor) cfg.max_delay := rfl
      _ = ratMin (delaySeqFrom cfg (ratMin (d * cfg.backoff_factor) cfg.max_delay) k
            * cfg.backoff_factor) cfg.max_delay := by rw [ih]
      _ = delaySeqFrom cfg (ratMin (d * cfg.backoff_factor) cfg.max_delay) (k + 1) := rfl

/-- The delay sequence of the spec is the sequence of the code started at
`initial_delay`. -/
theorem delaySeq_eq_from (cfg : RetryConfig) :
    ∀ n, delaySeq cfg n = delaySeqFrom cfg cfg.initial_delay n := by
  intro n
  induction n with
  | zero => rfl
  | succ k ih =>
    calc delaySeq cfg (k + 1)
        = ratMin (delaySeq cfg k * cfg.backoff_factor) cfg.max_delay := rfl
      _ = ratMin (delaySeqFrom cfg cfg.initial_delay k * cfg.backoff_factor)
            cfg.max_delay := by rw [ih]
      _ = delaySeqFrom cfg cfg.initial_delay (k + 1) := rfl

/-- Peeling the first element off a backoff-sequence prefix. -/
theorem range_map_delaySeqFrom (cfg : RetryConfig) (d : ℚ) (n : Nat) :
    (List.range (n + 1)).map (delaySeqFrom cfg d)
      = d :: (List.range n).map
          (delaySeqFrom cfg (ratMin (d * cfg.backoff_factor) cfg.max_delay)) := by
  rw [List.range_succ_eq_map, List.map_cons, List.map_map]
  have hfun : delaySeqFrom cfg d ∘ Nat.succ
      = delaySeqFrom cfg (ratMin (d * cfg.backoff_factor) cfg.max_delay) := by
    funext i
    exact delaySeqFrom_succ_shift cfg d i
  rw [hfun]
  rfl

/-- When every remaining attempt times out at the transport layer, the loop
sleeps through the backoff sequence from the current delay, uses up every
remaining iteration, and ends by raising the timeout error carrying the
configured timeout. -/
theorem loopFrom_all_timeouts (cfg : RetryConfig) (timeoutSecs : ℚ)
    (outcomes : Nat → AttemptOutcome) (h : ∀ i, outcomes i = .timeoutRaised) :
    ∀ remaining attempt delay st sleeps, 1 ≤ remaining →
      attempt + remaining = cfg.max_retries + 1 →
      loopFrom cfg timeoutSecs outcomes remaining attempt delay st sleeps =
        { result := .error (.timeout
            (JValue.str ("Timeout apos " ++ toString timeoutSecs ++ "s"))
            (some timeoutSecs) none),
          state := st,
          sleeps := sleeps ++ (List.range (remaining - 1)).map (delaySeqFrom cfg delay),
          attemptsMade := attempt + remaining,
          fellThrough := false } := by
  intro remaining
  induction remaining with
  | zero => intro _ _ _ _ h1 _; omega
  | succ n ih =>
    intro attempt delay st sleeps _ hsum
    simp only [loopFrom, h attempt]
    by_cases hlt : attempt < cfg.max_retries
    · rw [if_pos hlt]
      rw [ih (attempt + 1) _ st (sleeps ++ [delay]) (by omega) (by omega)]
      obtain ⟨m, rfl⟩ : ∃ m, n = m + 1 := ⟨n - 1, by omega⟩
      rw [RunResult.mk.injEq]
      refine ⟨rfl, rfl, ?_, by omega, rfl⟩
      rw [Nat.add_sub_cancel, Nat.add_sub_cancel, range_map_delaySeqFrom]
      simp
    · rw [if_neg hlt]
      have hn : n = 0 := by omega
      subst hn
      simp [RunResult.mk.injEq]

/-- C2: if every attempt of a logical call fails with a transport timeout,
the executor makes exactly `max_retries + 1` send attempts, sleeping
between consecutive attempts for the sequence `initial_delay,
min(initial_delay*backoff_factor, max_delay), ...`, and finally raises a
TimeoutError carrying the configured timeout value. -/
theorem C2_all_timeouts (cfg : RetryConfig) (timeoutSecs : ℚ)
    (outcomes : Nat → AttemptOutcome) (st : ClientState)
    (h : ∀ i, outcomes i = .timeoutRaised) :
    make_request cfg timeoutSecs outcomes st =
      { result := .error (.timeout
          (JValue.str ("Timeout apos " ++ toString timeoutSecs ++ "s"))
          (some timeoutSecs) none),
        state := st,
        sleeps := (List.range cfg.max_retries).map (delaySeq cfg),
        attemptsMade := cfg.max_retries + 1,
        fellThrough := false } := by
  rw [make_request,
    loopFrom_all_timeouts cfg timeoutSecs outcomes h (cfg.max_retries + 1) 0
      cfg.initial_delay st [] (by omega) (by omega)]
  have hfun : delaySeq cfg = delaySeqFrom cfg cfg.initial_delay :=
    funext (delaySeq_eq_from cfg)
  simp [RunResult.mk.injEq, hfun]

/-- Witness for C2: with the default retry configuration (3 retries,
initial delay 1, factor 2, cap 30) and timeout 30, an all-timeouts call
makes 4 attempts, sleeps 1, 2, 4 seconds, and raises the timeout error
carrying 30. -/
theorem C2_all_timeouts_witness :
    make_request {} 30 (fun _ => .timeoutRaised) ⟨none, none⟩ =
      { result := .error (.timeout (JValue.str "Timeout apos 30s") (some 30) none),
        state := ⟨none, none⟩,
        sleeps := [1, 2, 4],
        attemptsMade := 4,
        fellThrough := false } := by
  rw [C2_all_timeouts {} 30 (fun _ => .timeoutRaised) ⟨none, none⟩ (fun _ => rfl)]
  rw [RunResult.mk.injEq]
  refine ⟨rfl, rfl, ?_, rfl, rfl⟩
  norm_num [List.range_succ, delaySeq, ratMin]

/-- Provided that on a 429 the `Retry-After` header (if present) parses,
the status dispatch raises an error whose class is the one the §4.2 table
assigns to the status. The header condition matters only in the 429
branch, the single place `int(...)` runs. -/
theorem classifyStatus_raisedClass (r : Response) (data : List (String × JValue))
    (message : JValue) (request_id : Option String)
    (hra : r.status_code = 429 → r.retryAfterHeaderOk = true) :
    (classifyStatus r data message request_id).raisedClass
      = some (specVariantOfStatus r.status_code) := by
  unfold Response.retryAfterHeaderOk at hra
  unfold classifyStatus specVariantOfStatus
  split_ifs with h1 h2 h3 h4 <;> try rfl
  have hra4 := hra h4
  split
  · rfl
  · split
    · rfl
    · simp_all

/-- Provided that on a 429 the `Retry-After` header (if present) parses,
the status dispatch raises an error carrying exactly the `message` it was
given, whatever the status and hence whatever the variant. The header
condition matters only in the 429 branch, the single place `int(...)`
runs. -/
theorem classifyStatus_raisedMessage (r : Response) (data : List (String × JValue))
    (message : JValue) (request_id : Option String)
    (hra : r.status_code = 429 → r.retryAfterHeaderOk = true) :
    (classifyStatus r data message request_id).raisedMessage = some message := by
  unfold Response.retryAfterHeaderOk at hra
  unfold classifyStatus
  split_ifs with h1 h2 h3 h4 <;> try rfl
  have hra4 := hra h4
  split
  · rfl
  · split
    · rfl
    · simp_all

/-- A 429 response with a present but unparseable `Retry-After` header: the
`int(...)` call of the classifier raises `ValueError` instead of building a
RateLimitError. -/
def resp429BadRetryAfter : Response :=
  { status_code := 429, headers := [("Retry-After", "abc")],
    text := "Too Many Requests", json := .fail "Expecting value" }

/-- C1 as stated is false: this response has status 429, which the §4.2
table sends to RateLimitError, yet the classifier does not raise a
RateLimitError on it (a `ValueError` escapes instead, which the executor
wraps as a NetworkError). -/
theorem C1_counterexample :
    resp429BadRetryAfter.status_code = 429 ∧
    specVariantOfStatus 429 = "RateLimitError" ∧
    (handle_error resp429BadRetryAfter).raisedClass ≠ some "RateLimitError" := by
  refine ⟨rfl, rfl, ?_⟩
  rw [show (handle_error resp429BadRetryAfter).raisedClass = none from rfl]
  simp

/-- C1 (amended): for every response with status ≥ 400 whose body is either
unparseable as JSON or parses to a JSON object, and whose `Retry-After`
header — only when the status is 429 and the header is present — parses
as an integer, the classifier raises exactly the variant the §4.2 table
assigns: 401→AuthenticationError, 403→ForbiddenError, 404→NotFoundError,
429→RateLimitError, 400 or 422→ValidationError, ≥500→ServerError, any
other ≥400→the generic base error. A non-429 status is covered whatever
its `Retry-After` header holds, since `int(...)` runs only in the 429
branch. (Without the two carve-outs a Python error escapes the classifier
instead: `AttributeError` on a non-object JSON body, `ValueError` on an
unparseable `Retry-After` of a 429.) -/
theorem C1_amended_classifier_table (r : Response)
    (_hge : 400 ≤ r.status_code)
    (hbody : r.bodyDictOrUnparsed = true)
    (hra : r.status_code = 429 → r.retryAfterHeaderOk = true) :
    (handle_error r).raisedClass = some (specVariantOfStatus r.status_code) := by
  unfold handle_error
  unfold Response.bodyDictOrUnparsed at hbody
  cases hj : r.json with
  | ok v =>
    rw [hj] at hbody
    cases v with
    | obj d => exact classifyStatus_raisedClass r d _ _ hra
    | null => simp at hbody
    | bool b => simp at hbody
    | num n => simp at hbody
    | str s => simp at hbody
    | rat q => simp at hbody
    | arr l => simp at hbody
  | fail m => exact classifyStatus_raisedClass r [] _ _ hra

/-- A 403 response with a JSON object body. -/
def resp403Plan : Response :=
  { status_code := 403, headers := [("X-Request-ID", "req-1")],
    text := "\x7b\"detail\": \"Acesso negado\", \"required_plan\": \"pro\"\x7d",
    json := .ok (.obj [("detail", .str "Acesso negado"),
                       ("required_plan", .str "pro")]) }

/-- Witness for the amended C1: a 403 response is classified as
ForbiddenError, the variant the table gives for 403. -/
theorem C1_amended_classifier_table_witness :
    400 ≤ resp403Plan.status_code ∧
    resp403Plan.bodyDictOrUnparsed = true ∧
    (resp403Plan.status_code = 429 → resp403Plan.retryAfterHeaderOk = true) ∧
    (handle_error resp403Plan).raisedClass = some "ForbiddenError" :=
  ⟨by decide, rfl, fun _ => rfl,
    C1_amended_classifier_table resp403Plan (by decide) rfl (fun _ => rfl)⟩

/-- The `data` dict the classifier works with: the parsed JSON object, or
the empty dict on the unparseable-body fallback path. (For a parseable
non-object body `.get` raises before `data` is consumed, so the value
here is immaterial on that path.) -/
def Response.bodyDict (r : Response) : List (String × JValue) :=
  match r.json with
  | .ok (JValue.obj d) => d
  | _ => []

/-- The message the classifier computes before dispatching:
`data.get("detail", data.get("message", "Erro desconhecido"))` when the
body parses as a JSON object, and `response.text or "Erro desconhecido"`
when the body does not parse at all. (Immaterial for a parseable
non-object body, where `.get` raises first.) -/
def Response.resolvedMessage (r : Response) : JValue :=
  match r.json with
  | .ok (JValue.obj d) =>
      (dictGet? d "detail").getD ((dictGet? d "message").getD (JValue.str "Erro desconhecido"))
  | .ok _ => JValue.null
  | .fail _ => if r.text = "" then JValue.str "Erro desconhecido" else JValue.str r.text

/-- On the two body shapes the body handling of the classifier was written
for,
`_handle_error` is the status dispatch applied to the computed data dict
and resolved message. -/
theorem handle_error_eq_classifyStatus (r : Response)
    (hbody : r.bodyDictOrUnparsed = true) :
    handle_error r
      = classifyStatus r r.bodyDict r.resolvedMessage
          (r.headers.get? "X-Request-ID") := by
  unfold handle_error Response.bodyDict Response.resolvedMessage
  unfold Response.bodyDictOrUnparsed at hbody
  cases hj : r.json with
  | ok v =>
    rw [hj] at hbody
    cases v with
    | obj d => rfl
    | null => simp at hbody
    | bool b => simp at hbody
    | num n => simp at hbody
    | str s => simp at hbody
    | rat q => simp at hbody
    | arr l => simp at hbody
  | fail m => rfl

/-- A 429 response whose `Retry-After` header is the parseable integer 0. -/
def resp429ZeroRetryAfter : Response :=
  { status_code := 429, headers := [("Retry-After", "0")],
    text := "Too Many Requests", json := .fail "Expecting value" }

/-- C3 as stated is false: here the `Retry-After` header is present and
parseable as the integer 0, yet the raised RateLimitError stores
retry_after = 60, not 0 (the `retry_after or 60` coercion in
`RateLimitError.__init__` treats 0 as falsy). -/
theorem C3_counterexample :
    resp429ZeroRetryAfter.headers.get? "Retry-After" = some "0" ∧
    pyInt? "0" = some 0 ∧
    (handle_error resp429ZeroRetryAfter).retryAfterStored = some 60 ∧
    (60 : Int) ≠ 0 :=
  ⟨rfl, rfl, rfl, by decide⟩

/-- C3 (amended): for a 429 response (with a JSON-object or unparseable
body), the raised RateLimitError has retry_after equal to the integer
value of `Retry-After` when that header is present and parses to a
nonzero integer; retry_after is 60 when the header is absent or parses to
exactly 0; and when the header is present but unparseable the `int(...)`
call raises `ValueError` out of the classifier (surfaced by the executor
as a generic NetworkError) instead of producing a RateLimitError. -/
theorem C3_amended_retry_after (r : Response) (hs : r.status_code = 429)
    (hbody : r.bodyDictOrUnparsed = true) :
    (r.headers.get? "Retry-After" = none →
      (handle_error r).retryAfterStored = some 60) ∧
    (∀ s v, r.headers.get? "Retry-After" = some s → pyInt? s = some v → v ≠ 0 →
      (handle_error r).retryAfterStored = some v) ∧
    (∀ s, r.headers.get? "Retry-After" = some s → pyInt? s = some 0 →
      (handle_error r).retryAfterStored = some 60) ∧
    (∀ s, r.headers.get? "Retry-After" = some s → pyInt? s = none →
      (handle_error r).isPyError = true) := by
  rw [handle_error_eq_classifyStatus r hbody]
  unfold classifyStatus
  rw [hs]
  norm_num
  refine ⟨?_, ?_, ?_, ?_⟩
  · intro hnone
    simp [hnone, RateLimitError.make, HandleResult.retryAfterStored]
  · intro s v hsome hv hvne
    simp [hsome, hv, RateLimitError.make, HandleResult.retryAfterStored, hvne]
  · intro s hsome h0
    simp [hsome, h0, RateLimitError.make, HandleResult.retryAfterStored]
  · intro s hsome hnoneInt
    simp [hsome, hnoneInt, HandleResult.isPyError]

/-- A 429 response whose `Retry-After` header parses to 7. -/
def resp429Seven : Response :=
  { status_code := 429, headers := [("Retry-After", "7")],
    text := "Too Many Requests", json := .fail "Expecting value" }

/-- Witness for the amended C3: a parseable nonzero `Retry-After` of 7 is
stored as retry_after = 7. -/
theorem C3_amended_retry_after_witness :
    resp429Seven.headers.get? "Retry-After" = some "7" ∧
    pyInt? "7" = some 7 ∧
    (handle_error resp429Seven).retryAfterStored = some 7 :=
  ⟨rfl, rfl,
    (C3_amended_retry_after resp429Seven rfl rfl).2.1 "7" 7 rfl rfl (by decide)⟩

/-- A 500 response whose JSON-object body has neither `detail` nor
`message`, with a non-empty raw text. -/
def resp500NoDetail : Response :=
  { status_code := 500, headers := [], text := "\x7b\"foo\": 1\x7d",
    json := .ok (.obj [("foo", .num 1)]) }

/-- C6 as stated is false: the body parses as JSON with neither `detail`
nor `message`, and the raw response text is non-empty, so the claimed
resolution order would use the raw text — but the code uses the fixed
fallback string and never consults the raw text on this path. -/
theorem C6_counterexample :
    dictGet? [("foo", JValue.num 1)] "detail" = none ∧
    dictGet? [("foo", JValue.num 1)] "message" = none ∧
    resp500NoDetail.text ≠ "" ∧
    (handle_error resp500NoDetail).raisedMessage
      = some (JValue.str "Erro desconhecido") ∧
    resp500NoDetail.text ≠ "Erro desconhecido" :=
  ⟨rfl, rfl, by decide, rfl, by decide⟩

/-- C6 (amended): the message of the raised error, identical across all
variants, is resolved as follows — when the body parses as a JSON object:
field `detail` if present, else field `message` if present, else the fixed
unknown-error fallback, the raw text never being consulted; when the body
does not parse as JSON: the raw response text if non-empty, else the
fallback. (Stated for responses on the two supported body shapes; the
`Retry-After`-parses condition applies only to 429 responses, the one
case where an unparseable header makes the classifier raise no
`IPTUAPIError` at all — any other status is covered whatever that header
holds.) -/
theorem C6_amended_message_resolution (r : Response)
    (hbody : r.bodyDictOrUnparsed = true)
    (hra : r.status_code = 429 → r.retryAfterHeaderOk = true) :
    (handle_error r).raisedMessage = some r.resolvedMessage := by
  rw [handle_error_eq_classifyStatus r hbody]
  exact classifyStatus_raisedMessage r _ _ _ hra

/-- A 422 response with a JSON body carrying a `detail` field. -/
def resp422Detail : Response :=
  { status_code := 422, headers := [], text := "\x7b\"detail\": \"campo invalido\"\x7d",
    json := .ok (.obj [("detail", .str "campo invalido")]) }

/-- Witness for the amended C6: the `detail` field wins. -/
theorem C6_amended_message_resolution_witness :
    resp422Detail.bodyDictOrUnparsed = true ∧
    (resp422Detail.status_code = 429 → resp422Detail.retryAfterHeaderOk = true) ∧
    (handle_error resp422Detail).raisedMessage
      = some (JValue.str "campo invalido") :=
  ⟨rfl, fun _ => rfl,
    C6_amended_message_resolution resp422Detail rfl (fun _ => rfl)⟩
